import Mathlib

/-!
Verification of the ClipAI pipeline core against its specification.

The Python source is shallowly embedded: Python floats are modelled as
rationals (every concrete value appearing in the claims is exactly
representable and far from branch boundaries, so the rational model and
IEEE doubles agree on every branch decision and truncation used here),
Python lists as Lean lists, `None`-able fields as `Option`, and the
mutable LangGraph state dict as an explicit record threaded through the
stage functions.  External collaborators (network fetches, the
generative-model call, the video encoder, the filesystem) are modelled
by an environment record carrying the outcome each call would produce;
the repository code that consumes those outcomes is translated
faithfully from the source files under src/.
-/

namespace ClipAI

attribute [local semireducible] Rat.sub Rat.add Rat.mul Rat.inv Rat.ofScientific

/-- Truncation toward zero, the semantics of Python `int()` applied to a
float (src code uses `int(...)` on nonnegative products). Lean integer
division truncates toward zero. -/
def pyIntTrunc (q : ℚ) : ℤ := q.num / (q.den : ℤ)

/-- Python floor division `//` on integers. -/
def pyFloorDiv (a b : ℤ) : ℤ := Int.fdiv a b

/-- Python list slicing `l[:n]`: for `n ≥ 0` the first `n` elements; for
`n < 0` all but the last `-n` elements (clamped at the empty list).
Models `validated_clips[:max_clips]` in src/src/nodes/selection_node.py. -/
def pySliceTake (n : ℤ) (l : List α) : List α :=
  if 0 ≤ n then l.take n.toNat else l.take ((l.length : ℤ) + n).toNat

/-- `VideoSegment` from src/src/models/state.py: a candidate clip. -/
structure VideoSegment where
  start_time : ℚ
  end_time : ℚ
  content : String
  score : ℚ
  reasoning : String
  segment_type : String
deriving DecidableEq, Repr

/-- Pydantic field validation on `VideoSegment`: `score` carries
`ge=1, le=10`, so reconstructing a segment from a stored dict
(`VideoSegment(**clip_data)`) raises unless the score is in [1, 10]. -/
def segmentValid (c : VideoSegment) : Bool :=
  1 ≤ c.score && c.score ≤ 10

/-- The `processing` section of `AppConfig` (src/src/models/config.py)
as consumed by the pipeline nodes.  Durations are modelled as rationals
since the nodes compare them against float durations. -/
structure ProcessingConfig where
  max_clips_per_video : ℤ
  min_clip_duration : ℚ
  max_clip_duration : ℚ
  min_engagement_score : ℚ
  max_video_duration : ℚ
deriving DecidableEq, Repr

/-- One console message printed by the validation loop of
`select_clips_node` when it skips a clip (lines 47, 51, 56 of
src/src/nodes/selection_node.py).  Each constructor carries exactly the
data interpolated into the corresponding f-string: the segment time
range and the measured duration (or score). -/
inductive SkipMsg where
  | tooShort (start_t end_t dur : ℚ)
  | tooLong (start_t end_t dur : ℚ)
  | lowScore (start_t end_t sc : ℚ)
deriving DecidableEq, Repr

/-- Summary of the rejection decision of the validation loop for one
clip: `none` when the clip passes all three filters, otherwise the skip
message the loop prints. -/
def rejectMsg (cfg : ProcessingConfig) (c : VideoSegment) : Option SkipMsg :=
  let dur := c.end_time - c.start_time
  if dur < cfg.min_clip_duration then some (.tooShort c.start_time c.end_time dur)
  else if cfg.max_clip_duration < dur then some (.tooLong c.start_time c.end_time dur)
  else if c.score < cfg.min_engagement_score then some (.lowScore c.start_time c.end_time c.score)
  else none

/-- The validation loop of `select_clips_node`
(src/src/nodes/selection_node.py lines 41-59): walks the clips in
order, skips any whose duration falls outside
[min_clip_duration, max_clip_duration] or whose score is below
min_engagement_score, printing one console message per skip, and
collects the survivors in order.  Returns (survivors, printed skip
messages). -/
def validateClips (cfg : ProcessingConfig) :
    List VideoSegment → List VideoSegment × List SkipMsg
  | [] => ([], [])
  | c :: cs =>
    let r := validateClips cfg cs
    match rejectMsg cfg c with
    | some m => (r.1, m :: r.2)
    | none => (c :: r.1, r.2)

/-- Insert `x` into `l` before the first element whose key does not
exceed `key x`.  Helper for the stable descending sort below. -/
def insertDesc (key : α → ℚ) (x : α) : List α → List α
  | [] => [x]
  | y :: ys => if key x < key y then y :: insertDesc key x ys else x :: y :: ys

/-- Stable sort by `key`, highest first: the model of Python
`list.sort(key=..., reverse=True)` used at line 64 of
src/src/nodes/selection_node.py.  Python Timsort is stable and
`reverse=True` preserves the original order of elements with equal
keys; this insertion sort has the same input/output behaviour. -/
def sortByKeyDesc (key : α → ℚ) (l : List α) : List α :=
  l.foldr (insertDesc key) []

/-- The frame-geometry decision computed by `convert_to_portrait`
(src/src/nodes/clip_generation_node.py lines 209-287), with the
MoviePy side effects abstracted into a plan value:
`resize` = direct resize to the target size;
`cropVResize y1 y2` = crop rows [y1, y2] then resize;
`padHPos w x` = resize to (w, targetHeight), compose over a
target-size background at position (x, 0);
`cropHResize x1 x2` = crop columns [x1, x2] then resize;
`padVPos h y` = resize to (targetWidth, h), compose over a target-size
background at position (0, y). -/
inductive FramePlan where
  | resize (w h : ℤ)
  | cropVResize (y1 y2 : ℚ) (w h : ℤ)
  | padHPos (neww : ℤ) (x_offset : ℤ)
  | cropHResize (x1 x2 : ℚ) (w h : ℤ)
  | padVPos (newh : ℤ) (y_offset : ℤ)
deriving DecidableEq, Repr

/-- The branch and arithmetic of `convert_to_portrait`
(src/src/nodes/clip_generation_node.py lines 209-287) as a pure
function of the four frame dimensions. -/
def convert_to_portrait_plan (cw ch tw th : ℤ) : FramePlan :=
  let targetAspect : ℚ := (tw : ℚ) / (th : ℚ)
  let currentAspect : ℚ := (cw : ℚ) / (ch : ℚ)
  if |currentAspect - targetAspect| < 1/100 then
    .resize tw th
  else if targetAspect < currentAspect then
    let optimal_height : ℚ := (cw : ℚ) / targetAspect
    if optimal_height ≤ (ch : ℚ) then
      let y_center : ℚ := (ch : ℚ) / 2
      let y1 : ℚ := max 0 (y_center - optimal_height / 2)
      let y2 : ℚ := min (ch : ℚ) (y1 + optimal_height)
      .cropVResize y1 y2 tw th
    else
      let scale_factor : ℚ := (th : ℚ) / (ch : ℚ)
      let new_width : ℤ := pyIntTrunc ((cw : ℚ) * scale_factor)
      .padHPos new_width (pyFloorDiv (tw - new_width) 2)
  else
    let optimal_width : ℚ := (ch : ℚ) * targetAspect
    if optimal_width ≤ (cw : ℚ) then
      let x_center : ℚ := (cw : ℚ) / 2
      let x1 : ℚ := max 0 (x_center - optimal_width / 2)
      let x2 : ℚ := min (cw : ℚ) (x1 + optimal_width)
      .cropHResize x1 x2 tw th
    else
      let scale_factor : ℚ := (tw : ℚ) / (cw : ℚ)
      let new_height : ℤ := pyIntTrunc ((ch : ℚ) * scale_factor)
      .padVPos new_height (pyFloorDiv (th - new_height) 2)

/-- The characters removed by `sanitize_filename`
(src/src/utils/video_utils.py line 86). -/
def invalidChars : List Char := ['<', '>', ':', '"', '/', '\\', '|', '?', '*']

/-- Membership test for the characters stripped from both ends by
`filename.strip(" .")`. -/
def isStripChar (c : Char) : Bool := c = ' ' || c = '.'

/-- Python `s.strip(" .")` on a string modelled as a character list. -/
def pyStripSpaceDot (cs : List Char) : List Char :=
  ((cs.dropWhile isStripChar).reverse.dropWhile isStripChar).reverse

/-- `sanitize_filename` (src/src/utils/video_utils.py lines 83-95) on a
string modelled as a character list: replace each invalid character
with an underscore, strip leading/trailing spaces and dots, then
truncate to 200 characters when longer. -/
def sanitize_filename (cs : List Char) : List Char :=
  let replaced := cs.map (fun c => if c ∈ invalidChars then '_' else c)
  let stripped := pyStripSpaceDot replaced
  if 200 < stripped.length then stripped.take 200 else stripped

/-- `TranscriptSegment` from src/src/models/state.py. -/
structure TranscriptSeg where
  start_time : ℚ
  end_time : ℚ
  text : String
  confidence : Option ℚ
deriving DecidableEq, Repr

/-- The dict entries stored in `processed_clips` by
`generate_clips_node` (src/src/nodes/clip_generation_node.py), reduced
to the fields the pipeline reads back. -/
structure ClipResult where
  success : Bool
  output_path : Option String
  errors : List String
  filename : String
deriving DecidableEq, Repr

/-- Per-key configuration overrides carried in `state["config"]`
(consulted in the analysis and generation nodes); each field is `some`
exactly when the corresponding key is present in the dict.  They feed
only the external generative call, never the modelled state. -/
structure ConfigOverrides where
  max_clips_per_video : Option ℤ
  target_clip_duration : Option ℚ
  min_clip_duration : Option ℚ
  max_clip_duration : Option ℚ
deriving DecidableEq, Repr

/-- `PodcastState` from src/src/models/state.py: the mutable dict
threaded through every LangGraph node, as an explicit record.  Clip
collections are stored as segment values (the Python code stores their
dicts and reconstructs pydantic objects on read). -/
structure PodcastState where
  url : String
  video_path : Option String
  audio_path : Option String
  transcript : Option String
  transcript_segments : List TranscriptSeg
  transcript_source : Option String
  identified_clips : List VideoSegment
  selected_clips : List VideoSegment
  processed_clips : List ClipResult
  metadata : List String
  video_metadata : Option String
  video_title : Option String
  video_duration : Option ℚ
  video_id : Option String
  errors : List String
  warnings : List String
  config : ConfigOverrides
  status : String
  created_at : Option String
  completed_at : Option String
deriving DecidableEq, Repr

/-- Python truthiness of an optional string (`if not x:` is taken for
`None` and for the empty string). -/
def truthyStr : Option String → Bool
  | none => false
  | some s => !(s == "")

/-- `select_clips_node` (src/src/nodes/selection_node.py lines 10-104).
`cfgR` is the outcome of `AppConfig.from_env()` inside the `try` block
(`Except.error` when configuration loading raises).  Returns the
updated state together with the skip messages printed by the
validation loop.  The pydantic reconstruction
`[VideoSegment(**d) for d in identified_clips]` raises when any stored
score lies outside [1, 10]; that exception is caught by the same
handler as a configuration failure. -/
def select_clips_node (cfgR : Except String ProcessingConfig)
    (s : PodcastState) : PodcastState × List SkipMsg :=
  if s.identified_clips.isEmpty then
    ({ s with warnings := s.warnings ++ ["No clips identified by analysis"],
              selected_clips := [],
              status := "no_clips_identified" }, [])
  else
    match cfgR with
    | .error e =>
      ({ s with errors := s.errors ++ ["Clip selection failed: " ++ e],
                status := "selection_failed" }, [])
    | .ok cfg =>
      if s.identified_clips.all segmentValid then
        let v := validateClips cfg s.identified_clips
        let ranked := sortByKeyDesc (fun c => c.score) v.1
        let selected := pySliceTake cfg.max_clips_per_video ranked
        if selected.isEmpty then
          ({ s with warnings := s.warnings ++ ["No clips passed validation criteria"],
                    selected_clips := [],
                    status := "no_clips_passed_validation" }, v.2)
        else
          ({ s with selected_clips := selected, status := "clips_selected" }, v.2)
      else
        ({ s with errors := s.errors ++ ["Clip selection failed: segment validation error"],
                  status := "selection_failed" }, [])

/-- Result of the external `fetch_youtube_transcript` call. -/
structure TranscriptFetch where
  full : String
  segs : List TranscriptSeg
  source : String

/-- Result of the external `ydl.extract_info` call in the download
node: title, duration, and the remaining metadata payload. -/
structure YdlInfo where
  title : String
  duration : ℚ
  payload : String

/-- Outcomes of every external collaborator call made during one run,
plus the id-extraction helper.  Each `Except` is `error` exactly when
the corresponding Python call would raise. -/
structure PipelineEnv where
  /-- `datetime.now().isoformat()` at run start. -/
  nowIso : String
  /-- `extract_video_id_from_url` (src/src/utils/video_utils.py):
  regex-based id extraction, kept abstract because no claim depends on
  its string processing. -/
  extractId : String → String
  /-- `get_video_metadata(url)` in the transcript node: title and
  length. -/
  metadataResult : Except String (String × ℚ)
  /-- `fetch_youtube_transcript(url)` in the transcript node. -/
  transcriptResult : Except String TranscriptFetch
  /-- Aggregate outcome of configuration loading, the Gemini call and
  response parsing in the analysis node: the identified clips (parse
  failures caught inside the parser yield `ok []`). -/
  analysisResult : Except String (List VideoSegment)
  /-- `AppConfig.from_env()` (raises when mandatory environment
  variables are absent or malformed). -/
  configResult : Except String ProcessingConfig
  /-- `ydl.extract_info(url, download=False)` in the download node. -/
  infoResult : Except String YdlInfo
  /-- `ydl.download` plus the downloaded-file search and size check in
  the download node; `ok` carries the found file path. -/
  downloadResult : Except String String
  /-- `os.path.exists(video_path)` at the top of the generation node. -/
  videoFileExists : Bool
  /-- Configuration load, output-directory creation and
  `VideoFileClip(video_path)` in the generation node `try` block. -/
  genSetup : Except String Unit
  /-- Per-clip outcome of subclip extraction, portrait conversion and
  encoding for the i-th selected clip; `ok` carries the output path. -/
  clipOutcome : ℕ → Except String String
  /-- Per-clip outcome of the metadata Gemini call for the i-th
  successful clip: `ok (some d)` a parsed metadata dict, `ok none` a
  response that failed to parse, `error` a raised exception. -/
  metadataOutcome : ℕ → Except String (Option String)

/-- `fetch_transcript_node` (src/src/nodes/transcript_node.py lines
14-85): inner `try` for video metadata (failure appends a warning and
fills placeholder metadata), outer `try` for the transcript fetch
(failure appends an error and sets status "failed"). -/
def fetch_transcript_node (env : PipelineEnv) (s : PodcastState) : PodcastState :=
  let vid := env.extractId s.url
  let s1 :=
    match env.metadataResult with
    | .ok (title, len) =>
      { s with video_title := some title, video_duration := some len,
               video_id := some vid }
    | .error e =>
      { s with warnings := s.warnings ++ ["Could not fetch video metadata: " ++ e],
               video_title := some "Unknown Title", video_duration := some 0,
               video_id := some vid }
  match env.transcriptResult with
  | .ok t =>
    { s1 with transcript := some t.full, transcript_segments := t.segs,
              transcript_source := some t.source, status := "transcript_fetched",
              created_at := some (s1.created_at.getD env.nowIso) }
  | .error e =>
    { s1 with errors := s1.errors ++ ["Failed to fetch transcript: " ++ e],
              status := "failed" }

/-- `analyze_content_node` (src/src/nodes/analysis_node.py lines
16-122): with no usable transcript it appends a single error and
returns the state otherwise untouched; otherwise the `try` block
outcome either sets the identified clips or appends an error and sets
status "analysis_failed". -/
def analyze_content_node (env : PipelineEnv) (s : PodcastState) : PodcastState :=
  if !truthyStr s.transcript || s.transcript_segments.isEmpty then
    { s with errors := s.errors ++ ["No transcript available for analysis"] }
  else
    match env.analysisResult with
    | .ok clips =>
      { s with identified_clips := clips, status := "clips_identified" }
    | .error e =>
      { s with errors := s.errors ++ ["Content analysis failed: " ++ e],
               status := "analysis_failed" }

/-- `download_video_node` (src/src/nodes/video_download_node.py lines
16-138): fills a missing video id, then inside the `try` block loads
configuration, extracts info (warning when the video exceeds the
maximum duration), downloads, and on success records path and
metadata; any raise appends an error and sets status "failed".
A warning appended before a later failure persists, as in the source
where the list is mutated in place. -/
def download_video_node (env : PipelineEnv) (s : PodcastState) : PodcastState :=
  let s0 := if truthyStr s.video_id then s
            else { s with video_id := some (env.extractId s.url) }
  match env.configResult with
  | .error e =>
    { s0 with errors := s0.errors ++ ["Video download failed: " ++ e],
              status := "failed" }
  | .ok cfg =>
    match env.infoResult with
    | .error e =>
      { s0 with errors := s0.errors ++ ["Video download failed: " ++ e],
                status := "failed" }
    | .ok info =>
      let s1 := if cfg.max_video_duration < info.duration
                then { s0 with warnings := s0.warnings ++ ["Video exceeds the maximum duration limit. Processing may take a very long time."] }
                else s0
      match env.downloadResult with
      | .error e =>
        { s1 with errors := s1.errors ++ ["Video download failed: " ++ e],
                  status := "failed" }
      | .ok path =>
        { s1 with video_path := some path, video_title := some info.title,
                  video_duration := some info.duration,
                  video_metadata := some info.payload,
                  status := "video_downloaded" }

/-- `generate_clips_node` (src/src/nodes/clip_generation_node.py lines
17-206): missing video file appends an error (status untouched); no
selected clips appends a warning and sets the no-result status; a
setup failure or invalid stored segment data appends an error and sets
status "failed"; otherwise each clip yields a success result or a
failure result plus a warning, and the status reflects whether any
clip succeeded. -/
def generate_clips_node (env : PipelineEnv) (s : PodcastState) : PodcastState :=
  if !(truthyStr s.video_path && env.videoFileExists) then
    { s with errors := s.errors ++ ["No video file available for clip generation"] }
  else if s.selected_clips.isEmpty then
    { s with warnings := s.warnings ++ ["No clips selected for generation"],
             processed_clips := [], status := "no_clips_to_generate" }
  else
    match env.genSetup with
    | .error e =>
      { s with errors := s.errors ++ ["Clip generation failed: " ++ e],
               status := "failed" }
    | .ok _ =>
      if s.selected_clips.all segmentValid then
        let idxs := List.range s.selected_clips.length
        let results := idxs.map (fun i =>
          match env.clipOutcome i with
          | .ok path =>
            { success := true, output_path := some path, errors := [],
              filename := path : ClipResult }
          | .error e =>
            { success := false, output_path := none,
              errors := ["Failed to generate clip: " ++ e],
              filename := "failed_clip" : ClipResult })
        let ws := idxs.filterMap (fun i =>
          match env.clipOutcome i with
          | .ok _ => none
          | .error e => some ("Failed to generate clip: " ++ e))
        { s with processed_clips := results, warnings := s.warnings ++ ws,
                 status := if results.any (fun r => r.success)
                           then "clips_generated" else "clip_generation_failed" }
      else
        { s with errors := s.errors ++ ["Clip generation failed: segment validation error"],
                 status := "failed" }

/-- `generate_metadata_node` (src/src/nodes/metadata_generation_node.py
lines 14-138): empty or all-failed processed clips append a warning
and clear the metadata; a setup failure appends an error and sets
status "failed"; otherwise each successful clip yields a metadata
entry or a per-clip warning, and status becomes
"metadata_generated". -/
def generate_metadata_node (env : PipelineEnv) (s : PodcastState) : PodcastState :=
  if s.processed_clips.isEmpty then
    { s with warnings := s.warnings ++ ["No processed clips available for metadata generation"],
             metadata := [] }
  else
    let succ := s.processed_clips.filter (fun r => r.success)
    if succ.isEmpty then
      { s with warnings := s.warnings ++ ["No successful clips to generate metadata for"],
               metadata := [] }
    else
      match env.configResult with
      | .error e =>
        { s with errors := s.errors ++ ["Metadata generation failed: " ++ e],
                 status := "failed" }
      | .ok _ =>
        let idxs := List.range succ.length
        let md := idxs.filterMap (fun i =>
          match env.metadataOutcome i with
          | .ok (some d) => some d
          | .ok none => none
          | .error _ => none)
        let ws := idxs.filterMap (fun i =>
          match env.metadataOutcome i with
          | .ok (some _) => none
          | .ok none => some "Failed to generate metadata for clip"
          | .error e => some ("Failed to generate metadata for clip: " ++ e))
        { s with metadata := md, warnings := s.warnings ++ ws,
                 status := "metadata_generated" }

/-- `_should_continue_after_transcript`
(src/src/agents/podcast_agent.py lines 101-107). -/
def route_after_transcript (s : PodcastState) : String :=
  if s.status == "failed" then "end"
  else if !truthyStr s.transcript then "end"
  else "analyze"

/-- `_should_continue_after_analysis` (podcast_agent.py lines 109-115). -/
def route_after_analysis (s : PodcastState) : String :=
  if s.status == "failed" then "end"
  else if s.identified_clips.isEmpty then "end"
  else "select"

/-- `_should_continue_after_selection` (podcast_agent.py lines 117-123). -/
def route_after_selection (s : PodcastState) : String :=
  if s.status == "failed" then "end"
  else if s.selected_clips.isEmpty then "end"
  else "download"

/-- `_should_continue_after_download` (podcast_agent.py lines 125-131). -/
def route_after_download (s : PodcastState) : String :=
  if s.status == "failed" then "end"
  else if !truthyStr s.video_path then "end"
  else "generate"

/-- `_should_continue_after_generation` (podcast_agent.py lines
133-141). -/
def route_after_generation (s : PodcastState) : String :=
  if s.status == "failed" then "end"
  else if (s.processed_clips.filter (fun c => c.success)).isEmpty then "end"
  else "metadata"

/-- Remainder of the workflow graph after the generation stage has run:
the conditional edge either invokes the metadata stage or ends. -/
def run_after_generation (env : PipelineEnv) (s : PodcastState) : PodcastState :=
  if route_after_generation s == "metadata" then generate_metadata_node env s else s

/-- Remainder of the workflow graph after the download stage has run. -/
def run_after_download (env : PipelineEnv) (s : PodcastState) : PodcastState :=
  if route_after_download s == "generate" then
    run_after_generation env (generate_clips_node env s)
  else s

/-- Remainder of the workflow graph after the selection stage has run. -/
def run_after_selection (env : PipelineEnv) (s : PodcastState) : PodcastState :=
  if route_after_selection s == "download" then
    run_after_download env (download_video_node env s)
  else s

/-- Remainder of the workflow graph after the analysis stage has run. -/
def run_after_analysis (env : PipelineEnv) (s : PodcastState) : PodcastState :=
  if route_after_analysis s == "select" then
    run_after_selection env (select_clips_node env.configResult s).1
  else s

/-- Remainder of the workflow graph after the transcript stage has run. -/
def run_after_transcript (env : PipelineEnv) (s : PodcastState) : PodcastState :=
  if route_after_transcript s == "analyze" then
    run_after_analysis env (analyze_content_node env s)
  else s

/-- The initial state built by `PodcastClipsAgent.process_video`
(src/src/agents/podcast_agent.py lines 158-178). -/
def initial_state (env : PipelineEnv) (url : String) (ov : ConfigOverrides) :
    PodcastState :=
  { url := url, video_path := none, audio_path := none, transcript := none,
    transcript_segments := [], transcript_source := none,
    identified_clips := [], selected_clips := [], processed_clips := [],
    metadata := [], video_metadata := none, video_title := none,
    video_duration := none, video_id := none, errors := [], warnings := [],
    config := ov, status := "starting", created_at := some env.nowIso,
    completed_at := none }

/-- One full invocation of the compiled workflow graph
(`self.graph.invoke(initial_state)` in `process_video`): the entry
stage followed by the chain of conditional edges. -/
def run_pipeline (env : PipelineEnv) (url : String) (ov : ConfigOverrides) :
    PodcastState :=
  run_after_transcript env (fetch_transcript_node env (initial_state env url ov))

/-! Concrete fixtures used by witnesses and counterexamples. -/

/-- The default processing configuration values of
src/src/models/config.py (`min 25, max 35, score 7.5, 3 clips`). -/
def cfg0 : ProcessingConfig :=
  { max_clips_per_video := 3, min_clip_duration := 25, max_clip_duration := 35,
    min_engagement_score := 15/2, max_video_duration := 10800 }

/-- A clip that passes every validation filter. -/
def clipGood : VideoSegment :=
  { start_time := 10, end_time := 40, content := "good", score := 9,
    reasoning := "r", segment_type := "insight" }

/-- A clip rejected for being too short (duration 10 < 25). -/
def clipShort : VideoSegment :=
  { start_time := 0, end_time := 10, content := "short", score := 9,
    reasoning := "r", segment_type := "story" }

/-- A second passing clip with a lower score than `clipGood`. -/
def clipGood2 : VideoSegment :=
  { start_time := 100, end_time := 130, content := "good2", score := 8,
    reasoning := "r", segment_type := "funny" }

/-- Empty override dict. -/
def ov0 : ConfigOverrides :=
  { max_clips_per_video := none, target_clip_duration := none,
    min_clip_duration := none, max_clip_duration := none }

/-- An environment in which every external call succeeds. -/
def envOk : PipelineEnv :=
  { nowIso := "2026-01-01T00:00:00", extractId := fun u => u,
    metadataResult := .ok ("Title", 3600),
    transcriptResult := .ok { full := "hello world", segs := [{ start_time := 0, end_time := 5, text := "hello world", confidence := none }], source := "youtube" },
    analysisResult := .ok [clipGood],
    configResult := .ok cfg0,
    infoResult := .ok { title := "Title", duration := 3600, payload := "meta" },
    downloadResult := .ok "temp/vid.mp4",
    videoFileExists := true,
    genSetup := .ok (),
    clipOutcome := fun _ => .ok "outputs/vid/clips/clip.mp4",
    metadataOutcome := fun _ => .ok (some "md") }

/-- The all-succeeding environment except that the transcript fetch
raises. -/
def envTranscriptFail : PipelineEnv :=
  { envOk with transcriptResult := .error "no transcript" }

/-- A state whose status is already "failed". -/
def stateFailed : PodcastState :=
  { (initial_state envOk "u" ov0) with
    status := "failed",
    identified_clips := [clipGood], selected_clips := [clipGood2],
    processed_clips := [{ success := true, output_path := some "p",
                          errors := [], filename := "p" }] }

/-- A state holding one rejectable and one passing candidate clip, as
left by the analysis stage. -/
def stateTwoClips : PodcastState :=
  { (initial_state envOk "u" ov0) with
    transcript := some "hello world",
    identified_clips := [clipShort, clipGood],
    status := "clips_identified" }

/-- A sample filename with an invalid character and a trailing dot. -/
def sampleFilename : List Char := ['a', '<', 'b', '.']

/-! Helper lemmas about the validation loop and the stable sort. -/

/-- The survivors of the validation loop are exactly the candidates
whose rejection decision is `none`, in order. -/
theorem validateClips_fst (cfg : ProcessingConfig) :
    ∀ l : List VideoSegment,
      (validateClips cfg l).1 = l.filter (fun c => (rejectMsg cfg c).isNone)
  | [] => rfl
  | c :: cs => by
    simp only [validateClips, List.filter_cons]
    cases h : rejectMsg cfg c <;> simp [h, validateClips_fst cfg cs]

/-- The messages printed by the validation loop are exactly the
rejection decisions of the rejected candidates, in order. -/
theorem validateClips_snd (cfg : ProcessingConfig) :
    ∀ l : List VideoSegment,
      (validateClips cfg l).2 = l.filterMap (rejectMsg cfg)
  | [] => rfl
  | c :: cs => by
    simp only [validateClips, List.filterMap_cons]
    cases h : rejectMsg cfg c <;> simp [h, validateClips_snd cfg cs]

theorem sortByKeyDesc_nil (key : α → ℚ) : sortByKeyDesc key ([] : List α) = [] := rfl

theorem sortByKeyDesc_cons (key : α → ℚ) (x : α) (l : List α) :
    sortByKeyDesc key (x :: l) = insertDesc key x (sortByKeyDesc key l) := rfl

/-- Inserting permutes: the output is the input plus the new element. -/
theorem insertDesc_perm (key : α → ℚ) (x : α) :
    ∀ l : List α, List.Perm (insertDesc key x l) (x :: l)
  | [] => List.Perm.refl _
  | y :: ys => by
    simp only [insertDesc]
    split
    · exact (List.Perm.cons y (insertDesc_perm key x ys)).trans (List.Perm.swap x y ys)
    · exact List.Perm.refl _

/-- The stable descending sort permutes its input. -/
theorem sortByKeyDesc_perm (key : α → ℚ) :
    ∀ l : List α, List.Perm (sortByKeyDesc key l) l
  | [] => List.Perm.refl _
  | x :: xs =>
    ((insertDesc_perm key x (sortByKeyDesc key xs)).trans
      (List.Perm.cons x (sortByKeyDesc_perm key xs)))

/-- Inserting preserves the descending-key ordering. -/
theorem pairwise_insertDesc (key : α → ℚ) (x : α) :
    ∀ l : List α, l.Pairwise (fun a b => key b ≤ key a) →
      (insertDesc key x l).Pairwise (fun a b => key b ≤ key a)
  | [], _ => by simp [insertDesc]
  | y :: ys, h => by
    rw [List.pairwise_cons] at h
    simp only [insertDesc]
    split
    · rename_i hlt
      rw [List.pairwise_cons]
      refine ⟨fun z hz => ?_, pairwise_insertDesc key x ys h.2⟩
      rcases List.mem_cons.mp ((insertDesc_perm key x ys).mem_iff.mp hz) with rfl | hzys
      · exact le_of_lt hlt
      · exact h.1 z hzys
    · rename_i hge
      rw [List.pairwise_cons]
      refine ⟨fun z hz => ?_, List.pairwise_cons.mpr h⟩
      rcases List.mem_cons.mp hz with rfl | hzys
      · exact not_lt.mp hge
      · exact le_trans (h.1 z hzys) (not_lt.mp hge)

/-- The stable descending sort output is ordered by non-increasing
key. -/
theorem sortByKeyDesc_pairwise (key : α → ℚ) :
    ∀ l : List α, (sortByKeyDesc key l).Pairwise (fun a b => key b ≤ key a)
  | [] => List.Pairwise.nil
  | x :: xs =>
    pairwise_insertDesc key x (sortByKeyDesc key xs) (sortByKeyDesc_pairwise key xs)

/-- Inserting an element with key `q` prepends it to the `q`-keyed
subsequence; inserting any other element leaves that subsequence
unchanged. -/
theorem filter_insertDesc (key : α → ℚ) (q : ℚ) (x : α) :
    ∀ l : List α,
      (insertDesc key x l).filter (fun a => decide (key a = q)) =
        if key x = q then x :: l.filter (fun a => decide (key a = q))
        else l.filter (fun a => decide (key a = q))
  | [] => by by_cases hx : key x = q <;> simp [insertDesc, hx]
  | y :: ys => by
    simp only [insertDesc]
    split
    · rename_i hlt
      by_cases hx : key x = q
      · have hy : ¬ key y = q := fun h =>
          lt_irrefl q (by rw [hx] at hlt; rwa [h] at hlt)
        simp [List.filter_cons, hx, hy, filter_insertDesc key q x ys]
      · by_cases hy : key y = q <;>
          simp [List.filter_cons, hx, hy, filter_insertDesc key q x ys]
    · by_cases hx : key x = q <;> by_cases hy : key y = q <;>
        simp [List.filter_cons, hx, hy]

/-- Stability of the descending sort: for every key value, the
subsequence of elements carrying that key is returned in its original
order. -/
theorem sortByKeyDesc_stable (key : α → ℚ) (q : ℚ) :
    ∀ l : List α,
      (sortByKeyDesc key l).filter (fun a => decide (key a = q)) =
        l.filter (fun a => decide (key a = q))
  | [] => rfl
  | x :: xs => by
    rw [sortByKeyDesc_cons, filter_insertDesc key q x (sortByKeyDesc key xs)]
    by_cases hx : key x = q <;>
      simp [List.filter_cons, hx, sortByKeyDesc_stable key q xs]

/-- Stripping characters from both ends keeps only characters of the
original list. -/
theorem mem_of_mem_pyStrip {c : Char} {l : List Char}
    (h : c ∈ pyStripSpaceDot l) : c ∈ l := by
  unfold pyStripSpaceDot at h
  have h1 := List.mem_reverse.mp h
  have h2 := (List.dropWhile_sublist _).subset h1
  exact (List.dropWhile_sublist _).subset (List.mem_reverse.mp h2)

/-! Claim theorems. -/

/-- Claim C1: every segment surviving the validation filter of
`select_clips_node` has duration `end_time - start_time` within
[min_clip_duration, max_clip_duration] and score at least
min_engagement_score; violators are filtered out and hence absent. -/
theorem C1_validator_bounds (cfg : ProcessingConfig) (l : List VideoSegment)
    (c : VideoSegment) (hc : c ∈ (validateClips cfg l).1) :
    cfg.min_clip_duration ≤ c.end_time - c.start_time ∧
      c.end_time - c.start_time ≤ cfg.max_clip_duration ∧
      cfg.min_engagement_score ≤ c.score := by
  rw [validateClips_fst] at hc
  have hm : (rejectMsg cfg c).isNone = true := by
    simpa using List.of_mem_filter hc
  by_cases h1 : c.end_time - c.start_time < cfg.min_clip_duration
  · simp [rejectMsg, h1] at hm
  · by_cases h2 : cfg.max_clip_duration < c.end_time - c.start_time
    · simp [rejectMsg, h1, h2] at hm
    · by_cases h3 : c.score < cfg.min_engagement_score
      · simp [rejectMsg, h1, h2, h3] at hm
      · exact ⟨not_lt.mp h1, not_lt.mp h2, not_lt.mp h3⟩

/-- Witness for C1 at a concrete input: the passing clip of the
two-clip sample survives validation and satisfies all three bounds. -/
theorem C1_validator_bounds_witness :
    cfg0.min_clip_duration ≤ clipGood.end_time - clipGood.start_time ∧
      clipGood.end_time - clipGood.start_time ≤ cfg0.max_clip_duration ∧
      cfg0.min_engagement_score ≤ clipGood.score :=
  C1_validator_bounds cfg0 [clipShort, clipGood] clipGood (by decide)

/-- Claim C4: the ranked list built by `select_clips_node` from the
validation survivors is sorted by score descending, equal-score
survivors keep their original relative order (stability, expressed as
preservation of every equal-score subsequence), and the ranked list is
a permutation of the survivors. -/
theorem C4_ranking_sorted_stable (cfg : ProcessingConfig) (l : List VideoSegment) :
    (sortByKeyDesc (fun c => c.score) (validateClips cfg l).1).Pairwise
        (fun a b => b.score ≤ a.score) ∧
      (∀ q : ℚ,
        (sortByKeyDesc (fun c => c.score) (validateClips cfg l).1).filter
            (fun c => decide (c.score = q)) =
          (validateClips cfg l).1.filter (fun c => decide (c.score = q))) ∧
      List.Perm (sortByKeyDesc (fun c => c.score) (validateClips cfg l).1)
        (validateClips cfg l).1 :=
  ⟨sortByKeyDesc_pairwise _ _, fun q => sortByKeyDesc_stable _ q _,
    sortByKeyDesc_perm _ _⟩

/-- Counterexample to claim C5: the selection step is the Python slice
`validated_clips[:max_clips]`, and for the negative count -1 on a
two-element list the slice keeps the first element instead of
returning the empty sequence required by the claim for
`maxCount <= 0`. -/
theorem C5_counterexample :
    pySliceTake (-1) [clipShort, clipGood] = [clipShort] ∧
      [clipShort] ≠ ([] : List VideoSegment) := by
  constructor
  · rfl
  · decide

/-- Claim C5 as amended: for `maxCount ≥ 0` the slice returns the
first min(maxCount, length) elements; for negative `maxCount` it
returns the first length + maxCount elements (clamped at zero), so the
result is empty for `maxCount = 0` or empty input but not for every
negative count; in all cases the result is a prefix of the input in
the original order (witnessed by take ++ drop = input). -/
theorem C5_slice_amended (n : ℤ) (l : List VideoSegment) :
    pySliceTake n l =
        l.take (if 0 ≤ n then n.toNat else ((l.length : ℤ) + n).toNat) ∧
      (pySliceTake n l).length =
        min (if 0 ≤ n then n.toNat else ((l.length : ℤ) + n).toNat) l.length ∧
      pySliceTake n l ++
          l.drop (if 0 ≤ n then n.toNat else ((l.length : ℤ) + n).toNat) = l := by
  unfold pySliceTake
  split_ifs with h <;>
    simp [List.length_take, List.take_append_drop]

/-- Counterexample to claim C6: with one too-short and one passing
candidate the validation loop rejects the short clip (its skip message
is printed to the console), yet the state returned by
`select_clips_node` carries an unchanged, still-empty warnings
sequence — no warning is appended for the rejection. -/
theorem C6_counterexample :
    (validateClips cfg0 stateTwoClips.identified_clips).1 = [clipGood] ∧
      (validateClips cfg0 stateTwoClips.identified_clips).2 =
        [SkipMsg.tooShort 0 10 10] ∧
      (select_clips_node (.ok cfg0) stateTwoClips).1.warnings = [] ∧
      stateTwoClips.warnings = [] := by
  refine ⟨by decide, by decide, ?_, by decide⟩
  decide

/-- Claim C6 as amended: each rejected candidate produces exactly one
console skip message carrying its time range and measured duration
(or score), in input order; the warnings sequence of the returned
state is never extended per rejection — it is unchanged except for the
single collective messages of the no-candidates and
nothing-survived branches. -/
theorem C6_rejection_messages_amended (cfg : ProcessingConfig) (s : PodcastState) :
    (validateClips cfg s.identified_clips).2 =
        s.identified_clips.filterMap (rejectMsg cfg) ∧
      ((select_clips_node (.ok cfg) s).1.warnings = s.warnings ∨
        (select_clips_node (.ok cfg) s).1.warnings =
          s.warnings ++ ["No clips identified by analysis"] ∨
        (select_clips_node (.ok cfg) s).1.warnings =
          s.warnings ++ ["No clips passed validation criteria"]) := by
  refine ⟨validateClips_snd cfg s.identified_clips, ?_⟩
  unfold select_clips_node
  by_cases h0 : s.identified_clips.isEmpty
  · simp [h0]
  · by_cases hv : s.identified_clips.all segmentValid
    · by_cases hsel :
        (pySliceTake cfg.max_clips_per_video
          (sortByKeyDesc (fun c => c.score)
            (validateClips cfg s.identified_clips).1)).isEmpty
      · simp [h0, hv, hsel]
      · simp [h0, hv, hsel]
    · simp [h0, hv]

/-- Counterexample to claim C2: for source 1920x1080 and target
1080x1920 `convert_to_portrait` takes the wider-than-target branch
whose padding case resizes the source to the target height 1920
(new width `int(1920 * 1920/1080) = 3413`) and positions it at
x offset `(1080 - 3413) // 2 = -1167`; it does not resize the source
to width 1080 nor pad vertically with offset y at 656.25 as the claim
states. -/
theorem C2_counterexample :
    convert_to_portrait_plan 1920 1080 1080 1920 = FramePlan.padHPos 3413 (-1167) := by
  decide

/-- Claim C2 as amended: for source 1920x1080 and target 1080x1920 the
optimal crop height 1920/(9/16) = 10240/3 exceeds the source height
1080, so the transform resizes the source to the target height
(truncated new width 3413) and centers it horizontally at the negative
offset (1080-3413)//2 = -1167 over the 1080x1920 canvas — an effective
horizontal center crop rather than the vertical letterbox pad the spec
example describes. -/
theorem C2_portrait_amended :
    convert_to_portrait_plan 1920 1080 1080 1920 = FramePlan.padHPos 3413 (-1167) ∧
      ¬ ((1920 : ℚ) / ((1080 : ℚ) / (1920 : ℚ)) ≤ (1080 : ℚ)) ∧
      pyIntTrunc ((1920 : ℚ) * ((1920 : ℚ) / (1080 : ℚ))) = 3413 ∧
      pyFloorDiv (1080 - 3413) 2 = -1167 := by
  refine ⟨by decide, by decide, by decide, by decide⟩

/-- Claim C3: once a state carries status "failed", the remainder of
the workflow after any stage boundary returns the state unchanged —
every conditional router checks the status first and ends the run, so
no subsequently executed stage mutates identified_clips,
selected_clips or processed_clips (they retain the values held when
the status became "failed"). -/
theorem C3_failed_halts (env : PipelineEnv) (s : PodcastState)
    (h : s.status = "failed") :
    run_after_transcript env s = s ∧ run_after_analysis env s = s ∧
      run_after_selection env s = s ∧ run_after_download env s = s ∧
      run_after_generation env s = s := by
  have hb : (s.status == "failed") = true := by simp [h]
  refine ⟨?_, ?_, ?_, ?_, ?_⟩ <;>
    simp [run_after_transcript, run_after_analysis, run_after_selection,
      run_after_download, run_after_generation, route_after_transcript,
      route_after_analysis, route_after_selection, route_after_download,
      route_after_generation, hb]

/-- Witness for C3 at a concrete input: a failed state with non-empty
clip collections passes through the post-transcript remainder of the
pipeline untouched. -/
theorem C3_failed_halts_witness :
    run_after_transcript envOk stateFailed = stateFailed :=
  (C3_failed_halts envOk stateFailed rfl).1

/-- Claim C7: when the transcript fetch raises, the transcript stage
records the error and status "failed", the first conditional edge ends
the run, and the final state has status "failed", a non-empty error
sequence, and empty selected_clips and processed_clips; the final
state equals the state right after the transcript stage, so no later
stage executed. -/
theorem C7_transcript_failure (env : PipelineEnv) (url : String)
    (ov : ConfigOverrides) (e : String)
    (h : env.transcriptResult = .error e) :
    (run_pipeline env url ov).status = "failed" ∧
      (run_pipeline env url ov).errors ≠ [] ∧
      (run_pipeline env url ov).selected_clips = [] ∧
      (run_pipeline env url ov).processed_clips = [] ∧
      run_pipeline env url ov =
        fetch_transcript_node env (initial_state env url ov) := by
  have hfetch :
      (fetch_transcript_node env (initial_state env url ov)).status = "failed" ∧
        (fetch_transcript_node env (initial_state env url ov)).errors ≠ [] ∧
        (fetch_transcript_node env (initial_state env url ov)).selected_clips = [] ∧
        (fetch_transcript_node env (initial_state env url ov)).processed_clips = [] := by
    cases hm : env.metadataResult with
    | ok p => simp [fetch_transcript_node, hm, h, initial_state]
    | error e2 => simp [fetch_transcript_node, hm, h, initial_state]
  have hend : run_pipeline env url ov =
      fetch_transcript_node env (initial_state env url ov) := by
    have hb : ((fetch_transcript_node env (initial_state env url ov)).status
        == "failed") = true := by simp [hfetch.1]
    simp [run_pipeline, run_after_transcript, route_after_transcript, hb]
  exact ⟨hend ▸ hfetch.1, hend ▸ hfetch.2.1, hend ▸ hfetch.2.2.1,
    hend ▸ hfetch.2.2.2, hend⟩

/-- Witness for C7 at a concrete input: the all-succeeding environment
with a failing transcript fetch yields a failed final state. -/
theorem C7_transcript_failure_witness :
    (run_pipeline envTranscriptFail "url" ov0).status = "failed" ∧
      (run_pipeline envTranscriptFail "url" ov0).selected_clips = [] :=
  ⟨(C7_transcript_failure envTranscriptFail "url" ov0 "no transcript" rfl).1,
    (C7_transcript_failure envTranscriptFail "url" ov0 "no transcript" rfl).2.2.1⟩

/-- Counterexample to claim C8: running the selection stage on the
two-clip sample state changes selected_clips (contradicting the claim
that every field besides candidateClips, warnings and status is left
unchanged), while identified_clips — the candidate collection the
claim says is replaced by its survivors — is left exactly as it was
even though the survivors differ from it. -/
theorem C8_counterexample :
    (select_clips_node (.ok cfg0) stateTwoClips).1.selected_clips ≠
        stateTwoClips.selected_clips ∧
      (select_clips_node (.ok cfg0) stateTwoClips).1.identified_clips =
        stateTwoClips.identified_clips ∧
      (validateClips cfg0 stateTwoClips.identified_clips).1 ≠
        stateTwoClips.identified_clips := by
  refine ⟨by decide, by decide, by decide⟩

/-- Claim C8 as amended: the selection stage never mutates video_path,
processed_clips, identified_clips, or any field other than
selected_clips, warnings, status and errors (the last only in the
configuration/validation failure path); warnings and errors are only
appended to. -/
theorem C8_selection_frame_amended (cfgR : Except String ProcessingConfig)
    (s : PodcastState) :
    (select_clips_node cfgR s).1 =
        { s with
          selected_clips := (select_clips_node cfgR s).1.selected_clips,
          warnings := (select_clips_node cfgR s).1.warnings,
          status := (select_clips_node cfgR s).1.status,
          errors := (select_clips_node cfgR s).1.errors } ∧
      (∃ w, (select_clips_node cfgR s).1.warnings = s.warnings ++ w) ∧
      (∃ e, (select_clips_node cfgR s).1.errors = s.errors ++ e) := by
  unfold select_clips_node
  by_cases h0 : s.identified_clips.isEmpty
  · simp [h0]
  · cases cfgR with
    | error e => simp [h0]
    | ok cfg =>
      by_cases hv : s.identified_clips.all segmentValid
      · by_cases hsel :
          (pySliceTake cfg.max_clips_per_video
            (sortByKeyDesc (fun c => c.score)
              (validateClips cfg s.identified_clips).1)).isEmpty
        · simp [h0, hv, hsel]
        · simp [h0, hv, hsel]
      · simp [h0, hv]

/-- Claim C9: when the transcript text is absent or empty, or the
transcript segment list is empty, the analysis stage appends exactly
one error string and leaves every other field — including status and
identified_clips — unchanged. -/
theorem C9_analysis_no_transcript (env : PipelineEnv) (s : PodcastState)
    (h : truthyStr s.transcript = false ∨ s.transcript_segments = []) :
    analyze_content_node env s =
      { s with errors := s.errors ++ ["No transcript available for analysis"] } := by
  unfold analyze_content_node
  rcases h with h | h
  · simp [h]
  · simp [h]

/-- Witness for C9 at a concrete input: the freshly initialized state
has no transcript, and the analysis stage only appends the single
error message to it. -/
theorem C9_analysis_no_transcript_witness :
    analyze_content_node envOk (initial_state envOk "u" ov0) =
      { (initial_state envOk "u" ov0) with
        errors := ["No transcript available for analysis"] } :=
  C9_analysis_no_transcript envOk (initial_state envOk "u" ov0) (Or.inl rfl)

/-- Claim C10: `sanitize_filename` returns at most 200 characters and
its output contains none of the nine invalid filename characters
(each occurrence was replaced by an underscore before the strip and
truncation steps). -/
theorem C10_sanitize_bounds (cs : List Char) :
    (sanitize_filename cs).length ≤ 200 ∧
      ∀ c ∈ sanitize_filename cs, c ∉ invalidChars := by
  constructor
  · simp only [sanitize_filename]
    split
    · simp [List.length_take]
    · rename_i h
      exact Nat.le_of_not_lt h
  · intro c hc
    have h1 : c ∈ pyStripSpaceDot
        (cs.map fun a => if a ∈ invalidChars then '_' else a) := by
      simp only [sanitize_filename] at hc
      split at hc
      · exact (List.take_sublist _ _).subset hc
      · exact hc
    obtain ⟨a, _, ha⟩ := List.mem_map.mp (mem_of_mem_pyStrip h1)
    by_cases hai : a ∈ invalidChars
    · rw [if_pos hai] at ha
      rw [← ha]
      decide
    · rw [if_neg hai] at ha
      exact ha ▸ hai

/-- Witness for C10 at a concrete input: the sample filename sanitizes
within the length bound, and its surviving character is not an invalid
one. -/
theorem C10_sanitize_bounds_witness :
    (sanitize_filename sampleFilename).length ≤ 200 ∧ 'a' ∉ invalidChars :=
  ⟨(C10_sanitize_bounds sampleFilename).1,
    (C10_sanitize_bounds sampleFilename).2 'a' (by decide)⟩

end ClipAI
